import Mathlib

/-!
# Verification of lblprof's line-statistics tree builder and viewer

Shallow embedding of the profiler's analytical core:

* `lblprof/line_stat_object.py` — `LineKey`, `LineEvent`, `LineStats`;
* `lblprof/line_stats_tree.py`  — `LineStatsTree.add_line_event`,
  `LineStatsTree.build_tree`, `LineStatsTree._get_source_code`,
  `LineStatsTree.save_events`;
* `lblprof/sys_monitoring.py`   — `save_events_csv`;
* `terminal_ui.py`              — `TerminalTreeUI._cycle_sort_option` and the
  Space-key branch of `TerminalTreeUI._main_curses_loop`.

Modelling decisions, stated once here:

* Python floats (timestamps, durations) are modelled as exact rationals `ℚ`.
* A raw event's `line_no` is `int | "END_OF_FRAME"`, modelled by the sum
  type `PyLineNo`.  The `line_no` FIELD of the pydantic `LineStats` model is
  `int` (`ge=0`), so a validated node stores an `Int`.
* pydantic's runtime behaviour is modelled at every point `build_tree`
  exercises it:
  - the `LineStats(...)` constructor call validates `file_name`,
    `function_name`, `source` (`min_length=1`), `line_no` (an `int`, `ge=0`
    — the string `"END_OF_FRAME"` is rejected) and `start_time` (`ge=0`),
    raising `ValidationError` on failure;
  - the model keeps pydantic's default `extra='ignore'`, so the
    constructor's `id=` keyword is silently dropped and a `LineStats` object
    has NO `id` attribute: every later `event.id` read raises
    `AttributeError`;
  - `model_config = ConfigDict(validate_assignment=True)` makes the linking
    step's `node.parent = parent_id` (an `int` assigned to the field of
    type `Optional[Tuple[LineKey, Tuple[LineKey, ...]]]`) raise
    `ValidationError`; the dedup path's `hits += 1` revalidates and passes.
  A raised exception is the `.error` branch of `Except PyErr`; the
  exception's message is abstracted to the failing field or attribute
  label.  An exception propagates out of `build_tree`, so in-place
  mutations already performed by the crashing loop are unobservable through
  the call's result, which is what the model returns.
* `LineStats` objects are mutable and shared by reference.  We model the
  object heap as an association list keyed by the `events_index` dict key
  (the raw event's id — a key of the dict, not a field of the object), in
  creation order; `childs` and `root_lines` hold those keys.  `build_tree`
  creates at most one object per key (`if event_key not in
  self.events_index`), so keys identify objects.
* The text of a caught Python exception (the `{e}` part of the message
  built by `_get_source_code`, and the `str()` rendering of a float) is
  abstracted by fixed tokens; the surrounding formatting follows the
  source.
* The filesystem is a parameter: a map from file name to its list of lines.
-/

namespace LblProf

/-- Python `Union[int, Literal["END_OF_FRAME"]]` used for raw line numbers. -/
inductive PyLineNo where
  | line (n : Int)
  | endOfFrame
deriving DecidableEq, Repr

/-- `str()` of a `line_no` value as Python renders it into CSV text. -/
def pyLineNoStr : PyLineNo → String
  | .line n => toString n
  | .endOfFrame => "END_OF_FRAME"

/-- `LineKey` from `line_stat_object.py` (file, function, line number). -/
structure LineKey where
  file_name : String
  function_name : String
  line_no : PyLineNo
deriving DecidableEq, Repr

/-- One entry of a raw event's `stack_trace`: a `(file, function, line)` tuple. -/
abbrev StackEntry := String × String × Int

/-- A raw event as stored in `LineStatsTree.raw_events_list` by
`add_line_event` (the dict gets an `id` key in addition to the
`LineEvent` TypedDict fields). -/
structure LineEvent where
  id : Int
  file_name : String
  function_name : String
  line_no : PyLineNo
  start_time : ℚ
  stack_trace : List StackEntry
deriving DecidableEq, Repr

/-- `LineStats` from `line_stat_object.py:23-58`, field for field.  There is
NO `id` field: the `id=` keyword that `build_tree` passes to the constructor
is dropped by pydantic's default `extra='ignore'`.  `line_no` is the
validated `int` field.  `parent` has the annotated type
`Optional[Tuple[LineKey, Tuple[LineKey, ...]]]`; the only assignment to it
in the source raises, so it is `none` in every reachable object.  `childs`
holds `LineStats` object references, modelled as their `events_index` keys. -/
structure LineStats where
  file_name : String
  function_name : String
  line_no : Int
  stack_trace : List StackEntry
  start_time : ℚ
  hits : Int
  time : Option ℚ
  avg_time : Option ℚ
  source : String
  parent : Option (LineKey × List LineKey)
  childs : List Int
deriving DecidableEq, Repr

/-- `event_key[0]` of a node (the `event_key` property): its own `LineKey`,
built from the validated `int` line number. -/
def nodeKey (n : LineStats) : LineKey :=
  ⟨n.file_name, n.function_name, .line n.line_no⟩

/-- The `LineKey` built from the last entry of a `stack_trace`. -/
def stackEntryKey (e : StackEntry) : LineKey :=
  ⟨e.1, e.2.1, .line e.2.2⟩

/-! ## The object heap -/

/-- The heap of `LineStats` objects, in creation order, keyed by the
`events_index` key (the raw event's id). -/
abbrev Heap := List (Int × LineStats)

/-- Look up the object with the given key. -/
def hfind : Heap → Int → Option LineStats
  | [], _ => none
  | p :: t, i => if p.1 == i then some p.2 else hfind t i

/-- Mutate the object with the given key in place. -/
def hset : Heap → Int → (LineStats → LineStats) → Heap
  | [], _, _ => []
  | p :: t, i, f => (if p.1 == i then (p.1, f p.2) else p) :: hset t i f

/-! ## Source resolver (`_get_source_code`) -/

/-- The filesystem: file name to list of lines (`f.readlines()`), or absent. -/
abbrev FS := List (String × List String)

def fsFind (fs : FS) (file : String) : Option (List String) :=
  (fs.find? (fun p => p.1 == file)).map (·.2)

/-- The `self.line_source` cache, keyed by `(file_name, line_no)`. -/
abbrev SourceCache := List ((String × Int) × String)

def cacheFind (c : SourceCache) (k : String × Int) : Option String :=
  (c.find? (fun p => p.1 == k)).map (·.2)

/-- Python list indexing `lines[k]` with negative-index wraparound;
`none` is an `IndexError`. -/
def pyIndex (l : List String) (k : Int) : Option String :=
  if 0 ≤ k then l.get? k.toNat
  else if 0 ≤ (l.length : Int) + k then l.get? ((l.length : Int) + k).toNat
  else none

/-- Python `str.strip()`: drop leading and trailing whitespace. -/
def pyStrip (s : String) : String :=
  ⟨((s.toList.dropWhile Char.isWhitespace).reverse.dropWhile
      Char.isWhitespace).reverse⟩

/-- The message built by the `except` branch of `_get_source_code`; the
exception text `{e}` is abstracted by the `exc` argument. -/
def sourceErrMsg (line_no : Int) (file_name : String) (exc : String) : String :=
  "Error getting source code of line " ++ toString line_no ++ " in file "
    ++ file_name ++ ": " ++ exc

/-- The body of the `try:` block of `_get_source_code`: `open` + `readlines`
+ ordinary indexing, each of which can raise. -/
def tryReadLine (fs : FS) (file_name : String) (line_no : Int) :
    Except String (Option String) :=
  match fsFind fs file_name with
  | none => .error "FileNotFoundError"
  | some lines =>
    if line_no - 1 < (lines.length : Int) then
      match pyIndex lines (line_no - 1) with
      | some raw => .ok (some (pyStrip raw))
      | none => .error "IndexError"
    else
      .ok none        -- the `else: return " "` branch

/-- `LineStatsTree._get_source_code`, threading the `line_source` cache.
Total: every exception of the `try:` body is caught and turned into the
error message, so the function never raises to its caller. -/
def getSourceCode (fs : FS) (cache : SourceCache) (file_name : String)
    (line_no : PyLineNo) : String × SourceCache :=
  match line_no with
  | .endOfFrame => ("END_OF_FRAME", cache)
  | .line n =>
    match cacheFind cache (file_name, n) with
    | some s => (s, cache)
    | none =>
      match tryReadLine fs file_name n with
      | .ok (some s) => (s, cache ++ [((file_name, n), s)])
      | .ok none => (" ", cache)
      | .error e => (sourceErrMsg n file_name e, cache)

/-! ## Tree state and `add_line_event` -/

/-- Does the first list occur at the head of the second? -/
def listStarts : List Char → List Char → Bool
  | [], _ => true
  | _ :: _, [] => false
  | a :: as, b :: bs => a == b && listStarts as bs

/-- Does `needle` occur contiguously inside the list? -/
def pyInAux (needle : List Char) : List Char → Bool
  | [] => needle.isEmpty
  | c :: cs => listStarts needle (c :: cs) || pyInAux needle cs

/-- Python `needle in haystack` on strings (substring containment). -/
def pyIn (needle hay : String) : Bool :=
  pyInAux needle.toList hay.toList

/-- The mutable state of a `LineStatsTree` instance. -/
structure TreeState where
  raw_events_list : List LineEvent
  heap : Heap                 -- all `LineStats` objects ever created
  index : List Int            -- the keys of `events_index`, in dict order
  root_lines : List Int       -- keys of the objects in `root_lines`
  total_time_ms : ℚ
  line_source : SourceCache
deriving DecidableEq, Repr

/-- A fresh `LineStatsTree()`. -/
def emptyTree : TreeState := ⟨[], [], [], [], 0, []⟩

/-- `LineStatsTree.add_line_event`. -/
def addLineEvent (st : TreeState) (id : Int) (file_name function_name : String)
    (line_no : PyLineNo) (start_time : ℚ) (stack_trace : List StackEntry) :
    TreeState :=
  if pyIn "stop_tracing" function_name then st
  else
    { st with raw_events_list := st.raw_events_list ++
        [⟨id, file_name, function_name, line_no, start_time, stack_trace⟩] }

/-! ## Exceptions raised during `build_tree` -/

/-- A Python exception escaping `build_tree`: pydantic `ValidationError`
(labelled by the failing field), `AttributeError` (labelled by the missing
attribute), `TypeError` from `None + float` in the merge, a dangling child
reference (a model artifact that cannot occur under the source's object
semantics), or exhaustion of the model's merge-recursion fuel. -/
inductive PyErr where
  | validationError (field : String)
  | attributeError (attr : String)
  | typeError
  | missingNode
  | fuelOut
deriving DecidableEq, Repr

/-- Left fold that stops at the first raised exception. -/
def foldE {α β : Type} (f : β → α → Except PyErr β) : β → List α → Except PyErr β
  | b, [] => .ok b
  | b, a :: t =>
    match f b a with
    | .error e => .error e
    | .ok b2 => foldE f b2 t

/-! ## `build_tree`, phase 1: materialize nodes

For each raw event in order: resolve the source text, rewrite `line_no` to
`END_OF_FRAME` when the source contains `"stop_tracing"`, then either create
the node (keyed by the event id) or bump `hits` of the existing one.  The
constructor call validates its fields (see the header); in particular any
event whose (possibly rewritten) `line_no` is the string `"END_OF_FRAME"`
raises `ValidationError`, since the field is declared `int` with `ge=0`.
(The in-place rewrite of the raw event dict is not replayed into
`raw_events_list`: the list is not read again after this loop.) -/

/-- The `LineStats(...)` constructor call of phase 1 with its pydantic
validation; the `id=` keyword is dropped (`extra='ignore'`), `hits=1` and
`avg_time=0.0` always pass their checks.  pydantic collects every failing
field into one `ValidationError`; the model labels the error with the first
failing field in declaration order. -/
def mkLineStats (file_name function_name : String) (line_no : PyLineNo)
    (stack_trace : List StackEntry) (start_time : ℚ) (source : String) :
    Except PyErr LineStats :=
  if file_name.isEmpty then .error (.validationError "file_name")
  else if function_name.isEmpty then .error (.validationError "function_name")
  else
    match line_no with
    | .endOfFrame => .error (.validationError "line_no")
    | .line n =>
      if n < 0 then .error (.validationError "line_no")
      else if start_time < 0 then .error (.validationError "start_time")
      else if source.isEmpty then .error (.validationError "source")
      else .ok ⟨file_name, function_name, n, stack_trace, start_time,
        1, none, some 0, source, none, []⟩

def phase1StepE (fs : FS) (st : TreeState) (ev : LineEvent) :
    Except PyErr TreeState :=
  let res := getSourceCode fs st.line_source ev.file_name ev.line_no
  let source := res.1
  let st := { st with line_source := res.2 }
  let ln := if pyIn "stop_tracing" source then PyLineNo.endOfFrame else ev.line_no
  if st.index.contains ev.id then
    -- `hits += 1`: revalidation under validate_assignment passes (ge=0)
    .ok { st with heap := hset st.heap ev.id (fun n => { n with hits := n.hits + 1 }) }
  else
    match mkLineStats ev.file_name ev.function_name ln ev.stack_trace
        ev.start_time source with
    | .error e => .error e
    | .ok node =>
      .ok { st with
        heap := st.heap ++ [(ev.id, node)],
        index := st.index ++ [ev.id] }

def phase1E (fs : FS) (st : TreeState) : Except PyErr TreeState :=
  foldE (phase1StepE fs) st st.raw_events_list

/-! ## Phase 2: link parents

`next((key for key, line in self.events_index.items()
       if line.event_key[0] == parent_key), None)` scans the index in dict
(insertion) order and returns the FIRST node whose own `LineKey` equals the
key of the last stack entry. -/

/-- The parent search of `build_tree`. -/
def findParentId (st : TreeState) (pk : LineKey) : Option Int :=
  st.index.find? (fun i =>
    match hfind st.heap i with
    | some n => nodeKey n == pk
    | none => false)

/-- One iteration of the linking loop.  A root is appended to `root_lines`;
an orphan only logs a warning; on a successful parent search,
`self.events_index[parent_id].childs.append(node)` mutates a plain list (no
validation) and then `node.parent = parent_id` raises `ValidationError`:
`validate_assignment=True` and `parent_id` is an `int` while the field type
is `Optional[Tuple[LineKey, Tuple[LineKey, ...]]]`.  The exception
propagates out of `build_tree`, so the already-performed append is
unobservable through the call's result. -/
def phase2StepE (st : TreeState) (i : Int) : Except PyErr TreeState :=
  match hfind st.heap i with
  | none => .ok st
  | some node =>
    if node.stack_trace.isEmpty then
      .ok { st with root_lines := st.root_lines ++ [i] }
    else
      match node.stack_trace.getLast? with
      | none => .ok st
      | some e =>
        match findParentId st (stackEntryKey e) with
        | none => .ok st        -- orphan: warning logged, loop continues
        | some _ => .error (.validationError "parent")

def phase2E (st : TreeState) : Except PyErr TreeState :=
  foldE phase2StepE st st.index

/-! ## Phase 3: the duration loop

`for id, event in self.events_index.items():` — the FIRST iteration takes
the `if event.parent not in time_save:` branch (the dict starts empty) and
eagerly evaluates the f-string argument of `logging.debug`, which reads
`event.id` (`line_stats_tree.py:148`).  `LineStats` has no `id` attribute,
so any nonempty `events_index` raises `AttributeError` before a single
duration is assigned (both loop branches read `event.id`). -/

def phase3E (st : TreeState) : Except PyErr TreeState :=
  match st.index with
  | [] => .ok st
  | _ :: _ => .error (.attributeError "id")

/-! ## Phase 4: END_OF_FRAME pruning

`if event.line_no == "END_OF_FRAME":` compares the validated `int` field to
a string, which is `False` for every constructible node, so the loop removes
nothing. -/

def phase4 (st : TreeState) : TreeState := st

/-! ## Phase 5: recompute `root_lines`

`self.root_lines = [line for line in self.events_index.values()
                    if line.parent is None]`. -/

def phase5 (st : TreeState) : TreeState :=
  { st with root_lines := st.index.filter (fun i =>
      match hfind st.heap i with
      | some n => n.parent.isNone
      | none => false) }

/-! ## Phase 6: merge duplicates, then rebuild the index

`grouped_events` is a single dict over the whole tree keyed by
`(file_name, function_name, line_no)`.  `merge_events(event)` walks
`event.childs` by index; a child whose key is new is recorded as the
survivor; a duplicate is folded into the survivor (`time +=`, `hits +=`,
`childs.extend`) and recursed into.  `time +=` raises `TypeError` when a
side is `None`.  The final rebuild `self.events_index[event.id] = event`
reads the nonexistent `id` attribute, raising `AttributeError` as soon as
`grouped_events` is nonempty. -/

abbrev MergeKey := String × String × Int

abbrev Grouped := List (MergeKey × Int)

def gFind (g : Grouped) (k : MergeKey) : Option Int :=
  (g.find? (fun e => e.1 == k)).map (·.2)

/-- The body of `merge_events(event)` for the node `eid`, starting at child
position `k`; returns the updated state and `grouped_events`. -/
def mergeLoop : Nat → TreeState → Grouped → Int → Nat →
    Except PyErr (TreeState × Grouped)
  | 0, _, _, _, _ => .error .fuelOut
  | Nat.succ fuel, st, g, eid, k =>
    let childs := match hfind st.heap eid with
      | some n => n.childs
      | none => []
    if hk : k < childs.length then
      let cid := childs.get ⟨k, hk⟩
      match hfind st.heap cid with
      | none => .error .missingNode
      | some child =>
        let key : MergeKey := (child.file_name, child.function_name, child.line_no)
        match gFind g key with
        | none => mergeLoop fuel st (g ++ [(key, cid)]) eid (k + 1)
        | some sid =>
          match hfind st.heap sid with
          | none => .error .missingNode
          | some surv =>
            match surv.time, child.time with
            | some a, some b =>
              let st1 := { st with heap := hset st.heap sid (fun s =>
                { s with time := some (a + b), hits := s.hits + child.hits,
                         childs := s.childs ++ child.childs }) }
              match mergeLoop fuel st1 g cid 0 with
              | .error e => .error e
              | .ok r => mergeLoop fuel r.1 r.2 eid (k + 1)
            | _, _ => .error .typeError
    else
      .ok (st, g)

/-- `for event in self.root_lines: merge_events(event)`. -/
def mergeRoots : Nat → TreeState → Grouped → List Int →
    Except PyErr (TreeState × Grouped)
  | _, st, g, [] => .ok (st, g)
  | fuel, st, g, r :: rs =>
    match mergeLoop fuel st g r 0 with
    | .error e => .error e
    | .ok p => mergeRoots fuel p.1 p.2 rs

/-- Phase 6 proper: run the merge from every root, then rebuild
`events_index` via `self.events_index[event.id] = event` — an `event.id`
read that raises `AttributeError` on the first grouped entry. -/
def phase6E (fuel : Nat) (st : TreeState) : Except PyErr TreeState :=
  match mergeRoots fuel st [] st.root_lines with
  | .error e => .error e
  | .ok p =>
    match p.2 with
    | [] => .ok { p.1 with index := [] }
    | _ :: _ => .error (.attributeError "id")

/-- `LineStatsTree.build_tree`.  The `save_events` call at its head and the
`save_events_index` call at its end are pure I/O and modelled separately
(`save_events_index` is only reached with an empty index, where it writes
nothing).  The result is `.ok` only when every loop runs to completion;
an `.error` is the exception the call raises. -/
def buildTree (fuel : Nat) (fs : FS) (st : TreeState) : Except PyErr TreeState :=
  match phase1E fs st with
  | .error e => .error e
  | .ok st1 =>
    match phase2E st1 with
    | .error e => .error e
    | .ok st2 =>
      match phase3E st2 with
      | .error e => .error e
      | .ok st3 => phase6E fuel (phase5 (phase4 st3))

/-- The state of a fresh session whose `add_line_event` calls recorded `evs`. -/
def treeOfEvents (evs : List LineEvent) : TreeState :=
  { emptyTree with raw_events_list := evs }

/-! ## Export (`save_events`, `save_events_csv`) -/

/-- `str()` of a start time; Python's float rendering is abstracted by the
exact rational rendering. -/
def pyFloatRepr (q : ℚ) : String := toString q

/-- One line written by `LineStatsTree.save_events`: the f-string
`f"{id},{file_name},{function_name},{line_no},{start_time}"` (no header
line, no stack-trace field). -/
def saveEventsLine (e : LineEvent) : String :=
  toString e.id ++ "," ++ e.file_name ++ "," ++ e.function_name ++ ","
    ++ pyLineNoStr e.line_no ++ "," ++ pyFloatRepr e.start_time

/-- The file content written by `LineStatsTree.save_events`. -/
def saveEventsLines (st : TreeState) : List String :=
  st.raw_events_list.map saveEventsLine

/-- An event as consumed by `sys_monitoring.save_events_csv` (the fields it
reads: `id`, `file_name`, `func_name`, `line_no`, `start_time`,
`call_stack`, the latter a list of `LineKey`). -/
structure MonLineEvent where
  id : Int
  file_name : String
  func_name : String
  line_no : PyLineNo
  start_time : ℚ
  call_stack : List LineKey
deriving DecidableEq, Repr

/-- The header row written by `save_events_csv`. -/
def csvHeader : List String :=
  ["id", "file_name", "func_name", "line_no", "start_time", "stack_trace"]

/-- One data row written by `save_events_csv`; a row is the list of its
fields (csv quoting is the writer's concern, not modelled). -/
def csvRow (ev : MonLineEvent) : List String :=
  [toString ev.id, ev.file_name, ev.func_name, pyLineNoStr ev.line_no,
   pyFloatRepr ev.start_time,
   String.intercalate ";" (ev.call_stack.map (fun lk =>
     lk.file_name ++ ":" ++ lk.function_name ++ ":" ++ pyLineNoStr lk.line_no))]

/-- `sys_monitoring.save_events_csv`: header row then one row per event. -/
def saveEventsCsv (evs : List MonLineEvent) : List (List String) :=
  csvHeader :: evs.map csvRow

/-! ## Terminal viewer (`terminal_ui.py`) -/

/-- The sorting/navigation state of `TerminalTreeUI`. -/
structure UIState where
  sort_by : String
  reverse_sort : Bool
  current_pos : Int
  scroll_offset : Int
deriving DecidableEq, Repr

/-- `sort_options` from `_cycle_sort_option`. -/
def sortOptions : List (String × Bool) :=
  [("hits", false), ("hits", true),
   ("self_time", false), ("self_time", true),
   ("total_time", false), ("total_time", true)]

/-- `TerminalTreeUI._cycle_sort_option`. -/
def cycleSortOption (s : UIState) : UIState :=
  let current_idx := (sortOptions.findIdx? (fun o =>
    o.1 == s.sort_by && o.2 == s.reverse_sort)).getD 0
  let next_idx := (current_idx + 1) % sortOptions.length
  match sortOptions.get? next_idx with
  | some o => { s with sort_by := o.1, reverse_sort := o.2 }
  | none => s

/-- The Space-key branch of `_main_curses_loop`: cycle the sort option,
then reset `current_pos` and `scroll_offset` to 0. -/
def spaceKeyPress (s : UIState) : UIState :=
  let s1 := cycleSortOption s
  { s1 with current_pos := 0, scroll_offset := 0 }

/-- The `(sort_key, sort_descending)` pair of a UI state. -/
def sortPair (s : UIState) : String × Bool := (s.sort_by, s.reverse_sort)

/-! ## Concrete traces used as failing inputs, witnesses and counterexamples -/

/-- Event constructor for the concrete traces (all in file `f.py`). -/
def mkEv (id : Int) (fn : String) (ln : PyLineNo) (t : ℚ)
    (stk : List StackEntry) : LineEvent :=
  ⟨id, "f.py", fn, ln, t, stk⟩

/-- A filesystem with one two-line file. -/
def exFS : FS := [("f.py", ["r1", "r2"])]

/-- C1 failing input: a root with one child whose frame is closed by an
END_OF_FRAME sentinel — the minimal shape on which the claimed invariant
would be checked.  Materializing event 2 raises `ValidationError`. -/
def c1Events : List LineEvent :=
  [ mkEv 0 "mod" (.line 1) 0 [],
    mkEv 1 "g" (.line 10) 0 [("f.py", "mod", 1)],
    mkEv 2 "g" .endOfFrame 50 [("f.py", "mod", 1)],
    mkEv 3 "mod" (.line 2) 10 [] ]

/-- C2 failing input family: a root and two duplicate children (same
`LocationKey`), closed by an END_OF_FRAME sentinel; the four timestamps are
parameters.  Materializing the sentinel raises `ValidationError`. -/
def c2Events (t0 t1 t2 t3 : ℚ) : List LineEvent :=
  [ mkEv 0 "mod" (.line 1) t0 [],
    mkEv 1 "g" (.line 10) t1 [("f.py", "mod", 1)],
    mkEv 2 "g" (.line 10) t2 [("f.py", "mod", 1)],
    mkEv 3 "g" .endOfFrame t3 [("f.py", "mod", 1)] ]

/-- C3 failing input: a root and an orphan (its declared call site matches
no node).  Phases 1 and 2 complete — the orphan only logs a warning — and
the duration loop's first iteration raises `AttributeError` on `event.id`. -/
def c3Events : List LineEvent :=
  [ mkEv 0 "mod" (.line 1) 0 [],
    mkEv 1 "h" (.line 20) 1 [("nofile", "nofn", 99)] ]

/-- C4 failing input: two root events with the same `LineKey` (`g:5`), then
a child whose call stack names that key.  The linking loop finds the parent
and `node.parent = parent_id` raises `ValidationError`. -/
def c4Events : List LineEvent :=
  [ mkEv 0 "g" (.line 5) 0 [],
    mkEv 1 "g" (.line 5) 1 [],
    mkEv 2 "h" (.line 7) 2 [("f.py", "g", 5)] ]

/-- C5 failing input reaching the duration loop: two plain root events (no
sentinel, no links), so phases 1 and 2 complete and the duration loop
raises `AttributeError` on its first iteration. -/
def c5CrashEvents : List LineEvent :=
  [ mkEv 0 "mod" (.line 1) 0 [],
    mkEv 1 "mod" (.line 2) 2 [] ]

/-- C5 sentinel input: a frame's line events and its END_OF_FRAME event —
the configuration whose closing-out the claim describes; it already dies in
phase 1 on the sentinel. -/
def c5Events : List LineEvent :=
  [ mkEv 0 "mod" (.line 1) 0 [],
    mkEv 1 "f" (.line 10) 1 [("f.py", "mod", 1)],
    mkEv 2 "f" (.line 11) 3 [("f.py", "mod", 1)],
    mkEv 3 "f" PyLineNo.endOfFrame 6 [("f.py", "mod", 1)] ]

/-- C7 failing input: a single root event — the smallest trace that would
produce a root node, had the build completed. -/
def c7CrashEvents : List LineEvent :=
  [ mkEv 0 "mod" (.line 1) 0 [] ]

/-- A one-event tree state for the export counterexample. -/
def c8TreeState : TreeState :=
  { emptyTree with raw_events_list :=
      [⟨7, "f.py", "g", .line 5, 1, [("f.py", "mod", 1)]⟩] }

/-- A one-event list for the export witness. -/
def c8Ev : MonLineEvent :=
  ⟨7, "f.py", "g", .line 5, 1,
    [⟨"f.py", "mod", .line 1⟩, ⟨"f.py", "g", .line 5⟩]⟩

def c8MonEvents : List MonLineEvent := [c8Ev]

/-! # Theorems -/

set_option maxRecDepth 100000

/-! ## `build_tree` raises on every nonempty trace

Phase 1 leaves a nonempty `events_index` whenever it completes on a
nonempty raw list, phase 2 never changes the index when it completes, and
the duration loop raises on any nonempty index: the build can only return
normally on an empty trace. -/

theorem phase1StepE_ok_index (fs : FS) (st st2 : TreeState) (ev : LineEvent)
    (h : phase1StepE fs st ev = .ok st2) : st2.index ≠ [] := by
  unfold phase1StepE at h
  dsimp only at h
  by_cases hc : (st.index.contains ev.id) = true
  · rw [if_pos hc] at h
    cases hidx : st.index with
    | nil => rw [hidx] at hc; simp [List.contains] at hc
    | cons a t =>
      injection h with h2
      rw [← h2]
      dsimp only
      rw [hidx]
      simp
  · rw [if_neg hc] at h
    cases hm : mkLineStats ev.file_name ev.function_name
        (if pyIn "stop_tracing"
            (getSourceCode fs st.line_source ev.file_name ev.line_no).1 = true
          then PyLineNo.endOfFrame else ev.line_no)
        ev.stack_trace ev.start_time
        (getSourceCode fs st.line_source ev.file_name ev.line_no).1 with
    | error e => rw [hm] at h; cases h
    | ok node =>
      rw [hm] at h
      injection h with h2
      rw [← h2]
      simp

theorem foldE_phase1_index (fs : FS) :
    ∀ (l : List LineEvent) (st st2 : TreeState),
      foldE (phase1StepE fs) st l = .ok st2 → l ≠ [] → st2.index ≠ [] := by
  intro l
  induction l with
  | nil => intro st st2 _ hne; exact absurd rfl hne
  | cons a t ih =>
    intro st st2 h _
    unfold foldE at h
    cases hs : phase1StepE fs st a with
    | error e => rw [hs] at h; cases h
    | ok st1 =>
      rw [hs] at h
      dsimp only at h
      cases t with
      | nil =>
        unfold foldE at h
        injection h with h2
        rw [← h2]
        exact phase1StepE_ok_index fs st st1 a hs
      | cons b t2 => exact ih st1 st2 h (by simp)

theorem phase2StepE_ok_index (st st2 : TreeState) (i : Int)
    (h : phase2StepE st i = .ok st2) : st2.index = st.index := by
  unfold phase2StepE at h
  cases hn : hfind st.heap i with
  | none => rw [hn] at h; injection h with h2; rw [← h2]
  | some node =>
    rw [hn] at h
    dsimp only at h
    by_cases hs : (node.stack_trace.isEmpty) = true
    · rw [if_pos hs] at h
      injection h with h2
      rw [← h2]
    · rw [if_neg hs] at h
      cases hl : node.stack_trace.getLast? with
      | none => rw [hl] at h; injection h with h2; rw [← h2]
      | some e =>
        rw [hl] at h
        dsimp only at h
        cases hp : findParentId st (stackEntryKey e) with
        | none => rw [hp] at h; injection h with h2; rw [← h2]
        | some pid => rw [hp] at h; cases h

theorem foldE_phase2_index :
    ∀ (l : List Int) (st st2 : TreeState),
      foldE phase2StepE st l = .ok st2 → st2.index = st.index := by
  intro l
  induction l with
  | nil => intro st st2 h; injection h with h2; rw [← h2]
  | cons a t ih =>
    intro st st2 h
    unfold foldE at h
    cases hs : phase2StepE st a with
    | error e => rw [hs] at h; cases h
    | ok st1 =>
      rw [hs] at h
      dsimp only at h
      rw [ih st1 st2 h]
      exact phase2StepE_ok_index st st1 a hs

/-- Any trace with at least one event makes `build_tree` raise: phase 1
either raises or materializes a nonempty index, phase 2 either raises at
the first successful link or preserves the index, and the duration loop
raises `AttributeError` on any nonempty index. -/
theorem buildTree_cons_errors (fuel : Nat) (fs : FS) (ev : LineEvent)
    (evs : List LineEvent) :
    ∃ e, buildTree fuel fs (treeOfEvents (ev :: evs)) = .error e := by
  unfold buildTree
  cases h1 : phase1E fs (treeOfEvents (ev :: evs)) with
  | error e => exact ⟨e, rfl⟩
  | ok st1 =>
    dsimp only
    have hidx1 : st1.index ≠ [] := by
      have hfold : foldE (phase1StepE fs) (treeOfEvents (ev :: evs))
          (ev :: evs) = .ok st1 := h1
      exact foldE_phase1_index fs (ev :: evs) _ st1 hfold (by simp)
    cases h2 : phase2E st1 with
    | error e => exact ⟨e, rfl⟩
    | ok st2 =>
      dsimp only
      have hidx2 : st2.index ≠ [] := by
        have hfold : foldE phase2StepE st1 st1.index = .ok st2 := h2
        rw [foldE_phase2_index st1.index st1 st2 hfold]
        exact hidx1
      unfold phase3E
      cases hi : st2.index with
      | nil => exact absurd hi hidx2
      | cons a t => exact ⟨.attributeError "id", rfl⟩

/-- C1 (code_bug).  The trace whose invariant the claim would check — a
root, a child, the child frame's END_OF_FRAME sentinel and a second root —
never yields a tree: `build_tree` raises pydantic `ValidationError`
materializing the sentinel event (its `line_no` is the string
`"END_OF_FRAME"`, the field is `int` with `ge=0`), so there is no built
tree whose nodes could satisfy or violate the total-time identity. -/
theorem c1_build_crashes :
    ∀ fuel, buildTree fuel exFS (treeOfEvents c1Events)
      = .error (.validationError "line_no") :=
  fun _ => rfl

/-- C2 (code_bug).  The canonical duplicate-sibling trace — a root, two
same-key children and the closing END_OF_FRAME sentinel, at timestamps
0, 1, 4, 6 — makes `build_tree` raise `ValidationError` while materializing
the sentinel, so the merge pass is never reached and the claimed
`hits == 2` merged state is unreachable. -/
theorem c2_build_crashes :
    ∀ fuel, buildTree fuel exFS (treeOfEvents (c2Events 0 1 4 6))
      = .error (.validationError "line_no") :=
  fun _ => rfl

/-- C3 (code_bug).  On the root-plus-orphan trace, materialization and
linking complete (the orphan only logs a warning), and then the duration
loop's FIRST iteration raises `AttributeError` reading `event.id` — a field
the pydantic `LineStats` does not have — so `build_tree` never reaches the
root recomputation and no final root set exists to characterize. -/
theorem c3_build_crashes :
    ∀ fuel, buildTree fuel exFS (treeOfEvents c3Events)
      = .error (.attributeError "id") :=
  fun _ => rfl

/-- C4 (code_bug).  On a trace where the parent search succeeds (two nodes
match the child's call-site key), the linking step itself raises: with
`validate_assignment=True`, `node.parent = parent_id` assigns an `int` to a
field of type `Optional[Tuple[LineKey, ...]]` and pydantic raises
`ValidationError` at the FIRST successful link, so no parent assignment is
ever observable. -/
theorem c4_build_crashes :
    ∀ fuel, buildTree fuel exFS (treeOfEvents c4Events)
      = .error (.validationError "parent") :=
  fun _ => rfl

/-- C5 (code_bug).  The duration-derivation loop never derives a duration:
on ANY state whose `events_index` is nonempty its first iteration raises
`AttributeError` reading `event.id`; concretely, the two-root trace that
reaches the loop dies there, and the frame-with-sentinel trace the claim
describes already dies in phase 1 materializing its END_OF_FRAME event. -/
theorem c5_duration_loop_crashes :
    (∀ (st : TreeState) (i : Int) (rest : List Int),
      phase3E { st with index := i :: rest } = .error (.attributeError "id")) ∧
    (∀ fuel, buildTree fuel exFS (treeOfEvents c5CrashEvents)
      = .error (.attributeError "id")) ∧
    (∀ fuel, buildTree fuel exFS (treeOfEvents c5Events)
      = .error (.validationError "line_no")) :=
  ⟨fun _ _ _ => rfl, fun _ => rfl, fun _ => rfl⟩

/-- C7 (code_bug).  The rebuilt `events_index` the claim describes never
exists: on every trace with at least one event, `build_tree` raises before
(or at) the duration loop, so no root list of a completed build can be
compared against a rebuilt index; the single-root trace concretely dies
with `AttributeError` on `event.id`. -/
theorem c7_index_rebuild_unreachable :
    (∀ (fuel : Nat) (fs : FS) (ev : LineEvent) (evs : List LineEvent),
      ∃ e, buildTree fuel fs (treeOfEvents (ev :: evs)) = .error e) ∧
    (∀ fuel, buildTree fuel exFS (treeOfEvents c7CrashEvents)
      = .error (.attributeError "id")) :=
  ⟨buildTree_cons_errors, fun _ => rfl⟩

/-- C6 (counterexample).  The source resolver does not return one fixed
placeholder string on I/O errors: a missing file yields a message that
embeds the file name and line number (two different inputs give two
different strings), while an out-of-range line yields the distinct `" "`. -/
theorem c6_source_counterexample :
    (getSourceCode [] [] "a.py" (.line 3)).1 ≠
      (getSourceCode [] [] "b.py" (.line 3)).1 ∧
    (getSourceCode [("a.py", ["x"])] [] "a.py" (.line 9)).1 = " " ∧
    (getSourceCode [] [] "a.py" (.line 3)).1 ≠ " " := by
  refine ⟨?_, rfl, ?_⟩ <;> decide

/-- C6 (amended).  The resolver is total (every exception of the `try:` body
is caught), and on an uncached lookup it returns the input-dependent error
message when the file cannot be read, and the fixed `" "` when the line
index is out of range. -/
theorem c6_source_amended (fs : FS) (cache : SourceCache) (file : String)
    (n : Int) (hc : cacheFind cache (file, n) = none) :
    (fsFind fs file = none →
      (getSourceCode fs cache file (.line n)).1
        = sourceErrMsg n file "FileNotFoundError") ∧
    (∀ ls, fsFind fs file = some ls → ¬(n - 1 < (ls.length : Int)) →
      (getSourceCode fs cache file (.line n)).1 = " ") := by
  constructor
  · intro hf
    simp [getSourceCode, hc, tryReadLine, hf]
  · intro ls hf hlen
    simp [getSourceCode, hc, tryReadLine, hf, hlen]

/-- Witness for C6 (amended): missing file `a.py` at line 3 with empty cache. -/
theorem c6_source_amended_witness :
    (getSourceCode [] [] "a.py" (.line 3)).1
      = sourceErrMsg 3 "a.py" "FileNotFoundError" :=
  (c6_source_amended [] [] "a.py" 3 rfl).1 rfl

/-- C8 (counterexample).  `LineStatsTree.save_events` (the export invoked by
`build_tree`) writes one comma-joined line per event with five fields and no
header row: on a one-event tree the whole file is a single data line, which
is not the claimed header and has no sixth stack-trace field. -/
theorem c8_export_counterexample :
    saveEventsLines c8TreeState = ["7,f.py,g,5,1"] ∧
    "7,f.py,g,5,1" ≠ "id,file_name,func_name,line_no,start_time,stack_trace" ∧
    ("7,f.py,g,5,1".toList.count ',') = 4 := by
  exact ⟨rfl, by decide, by decide⟩

/-- C8 (amended).  The standalone exporter `save_events_csv` writes the
header row `id,file_name,func_name,line_no,start_time,stack_trace` followed
by one row per event whose sixth field is the `;`-joined
`file:function:line` rendering of the event's call stack, in order; the
tree's own `save_events` writes exactly one (headerless, five-field) line
per raw event. -/
theorem c8_export_amended :
    (∀ evs : List MonLineEvent,
      (saveEventsCsv evs).head? = some csvHeader ∧
      (saveEventsCsv evs).length = evs.length + 1 ∧
      (∀ ev ∈ evs, csvRow ev ∈ saveEventsCsv evs ∧ (csvRow ev).length = 6 ∧
        (csvRow ev).getLast? = some (String.intercalate ";"
          (ev.call_stack.map (fun lk =>
            lk.file_name ++ ":" ++ lk.function_name ++ ":"
              ++ pyLineNoStr lk.line_no))))) ∧
    (∀ st : TreeState,
      (saveEventsLines st).length = st.raw_events_list.length ∧
      ∀ e ∈ st.raw_events_list, saveEventsLine e ∈ saveEventsLines st) := by
  constructor
  · intro evs
    refine ⟨rfl, by simp [saveEventsCsv], ?_⟩
    intro ev hev
    exact ⟨List.mem_cons_of_mem _ (List.mem_map_of_mem _ hev), rfl, rfl⟩
  · intro st
    exact ⟨by simp [saveEventsLines], fun e he => List.mem_map_of_mem _ he⟩

/-- Witness for C8 (amended) at the one-event list `c8MonEvents`. -/
theorem c8_export_amended_witness :
    csvRow c8Ev ∈ saveEventsCsv c8MonEvents ∧ (csvRow c8Ev).length = 6 ∧
    (csvRow c8Ev).getLast? = some (String.intercalate ";"
      (c8Ev.call_stack.map (fun lk =>
        lk.file_name ++ ":" ++ lk.function_name ++ ":"
          ++ pyLineNoStr lk.line_no))) :=
  (c8_export_amended.1 c8MonEvents).2.2 c8Ev (List.mem_singleton.mpr rfl)

/-- A Space press discards the incoming cursor/scroll state: its result
only depends on the incoming sort pair. -/
theorem space_drops_cursor (sb : String) (rs : Bool) (cp so : Int) :
    spaceKeyPress ⟨sb, rs, cp, so⟩ = spaceKeyPress ⟨sb, rs, 0, 0⟩ := by
  cases hq : sortOptions.get? (((sortOptions.findIdx? (fun o =>
      o.1 == sb && o.2 == rs)).getD 0 + 1) % sortOptions.length) with
  | none =>
    simp only [List.get?_eq_getElem?] at hq
    simp [spaceKeyPress, cycleSortOption, hq]
  | some o =>
    simp only [List.get?_eq_getElem?] at hq
    simp [spaceKeyPress, cycleSortOption, hq]

/-- C9 (confirmed).  Starting from any state whose sort pair is one of the
six options, six Space presses return the `(sort_key, sort_descending)` pair
to its starting value, and the six pairs visited along the way are a
permutation of the six combinations (each visited exactly once); every
Space press resets `current_pos` and `scroll_offset` to 0. -/
theorem c9_space_cycles_sort :
    (∀ s : UIState, sortPair s ∈ sortOptions →
      sortPair ((spaceKeyPress)^[6] s) = sortPair s ∧
      ((List.range 6).map (fun k => sortPair ((spaceKeyPress)^[k + 1] s))).Perm
        sortOptions) ∧
    (∀ s : UIState, (spaceKeyPress s).current_pos = 0 ∧
      (spaceKeyPress s).scroll_offset = 0) := by
  constructor
  · rintro ⟨sb, rs, cp, so⟩ h
    simp only [sortOptions, sortPair, List.mem_cons, List.not_mem_nil, or_false,
      Prod.mk.injEq] at h
    rcases h with ⟨h1, h2⟩ | ⟨h1, h2⟩ | ⟨h1, h2⟩ | ⟨h1, h2⟩ | ⟨h1, h2⟩ | ⟨h1, h2⟩ <;>
      subst h1 <;> subst h2 <;>
      refine ⟨?_, ?_⟩ <;>
      simp only [Function.iterate_succ_apply, space_drops_cursor, sortPair] <;>
      decide
  · intro s
    exact ⟨rfl, rfl⟩

/-- Witness for C9 at the viewer's initial state (`total_time`, descending)
with a nonzero cursor. -/
theorem c9_space_cycles_sort_witness :
    sortPair ((spaceKeyPress)^[6] ⟨"total_time", true, 3, 7⟩)
      = sortPair ⟨"total_time", true, 3, 7⟩ ∧
    ((List.range 6).map (fun k =>
      sortPair ((spaceKeyPress)^[k + 1] (⟨"total_time", true, 3, 7⟩ : UIState)))).Perm
      sortOptions :=
  c9_space_cycles_sort.1 ⟨"total_time", true, 3, 7⟩ (by decide)

/-- C10 (confirmed).  A call to `add_line_event` whose `function_name`
contains `"stop_tracing"` returns before recording anything: the whole tree
state (raw event list included) is unchanged and no error is raised. -/
theorem c10_stop_tracing_ignored (st : TreeState) (id : Int)
    (file_name function_name : String) (line_no : PyLineNo) (start_time : ℚ)
    (stack_trace : List StackEntry)
    (h : pyIn "stop_tracing" function_name = true) :
    addLineEvent st id file_name function_name line_no start_time stack_trace
      = st := by
  simp [addLineEvent, h]

/-- Witness for C10: a `stop_tracing` helper event leaves the empty tree
untouched. -/
theorem c10_stop_tracing_ignored_witness :
    pyIn "stop_tracing" "my_stop_tracing_helper" = true ∧
    addLineEvent emptyTree 5 "a.py" "my_stop_tracing_helper" (.line 3) 2 []
      = emptyTree :=
  ⟨rfl, c10_stop_tracing_ignored emptyTree 5 "a.py" "my_stop_tracing_helper"
    (.line 3) 2 [] rfl⟩

end LblProf
